import Mathlib

/-!
Verification model of the signalk-noon-log plugin core: the report
scheduler, the haversine distance calculator, the sql.js-backed storage
(log entries, environmental data rows, distance rows, voyages), the data
collector / unit converter, the noon-report handler and the position
tracker.  JavaScript numbers are modelled as real numbers, JS `null` as
`Option.none`, and JS numeric truthiness (`0`, `null` falsy) explicitly.
SQL tables are modelled as lists of rows in insertion order.
-/

set_option maxHeartbeats 1000000

namespace NoonLog

/-! ## JavaScript value helpers -/

/-- JS numeric truthiness: `null` and `0` are falsy. -/
noncomputable def numTruthy (v : Option ℝ) : Bool :=
  match v with
  | none => false
  | some x => decide (x ≠ 0)

/-- JS `v || null` on a number: `0` and `null` collapse to `null`. -/
noncomputable def jsOrNull (v : Option ℝ) : Option ℝ :=
  match v with
  | none => none
  | some x => if x = 0 then none else some x

/-- JS `s || null` on a string: the empty string collapses to `null`. -/
def jsStrOrNull (v : Option String) : Option String :=
  match v with
  | none => none
  | some s => if s = "" then none else some s

/-- JS `s || dflt` on a string option. -/
def jsStrOr (v : Option String) (dflt : String) : String :=
  match v with
  | none => dflt
  | some s => if s = "" then dflt else s

/-- A JS number slot coerced to a number for arithmetic (`null` acts as 0). -/
def jsNum (v : Option ℝ) : ℝ := v.getD 0

/-! ## Time constants (scheduler.js TIME_CONSTANTS) -/

def MS_PER_MINUTE : ℤ := 60 * 1000
def MS_PER_HOUR : ℤ := 60 * 60 * 1000
def MS_PER_DAY : ℤ := 24 * MS_PER_HOUR
def DEFAULT_REPORT_INTERVAL_HOURS : ℤ := 24
def REPORT_TRIGGER_WINDOW_MS : ℤ := 60 * 1000

/-! ## ReportScheduler (scheduler.js) -/

/-- Character-level string split, modelling the JS split on a colon. -/
def splitCharAux (sep : Char) : List Char → List Char → List (List Char)
  | [], acc => [acc.reverse]
  | c :: rest, acc =>
    if c == sep then acc.reverse :: splitCharAux sep rest []
    else splitCharAux sep rest (c :: acc)

def splitChar (sep : Char) (s : String) : List (List Char) :=
  splitCharAux sep s.toList []

/-- Decimal parse of one split component, modelling JS `Number(part)` on the
inputs the scheduler sees: all-digit strings parse to the number, anything
else is `none` (NaN). -/
def parseDigits (cs : List Char) : Option ℕ :=
  if cs ≠ [] ∧ cs.all (·.isDigit) then
    some (cs.foldl (fun a c => a * 10 + (c.toNat - 48)) 0)
  else none

/-- `ReportScheduler.parseTime`: parse "HH:MM", validating hour/minute
ranges, defaulting to (12, 0) on any malformed input. -/
def parseTime (timeStr : String) : ℕ × ℕ :=
  match (splitChar ':' timeStr).map parseDigits with
  | sh :: sm :: _ =>
    match sh, sm with
    | some hours, some minutes =>
      if hours ≤ 23 ∧ minutes ≤ 59 then (hours, minutes) else (12, 0)
    | _, _ => (12, 0)
  | _ => (12, 0)

/-- Scheduler-relevant plugin options.  `reportInterval = 0` models a
missing/falsy configured interval (the code applies `|| 24`). -/
structure SchedOptions where
  reportInterval : ℕ
  firstReportTime : Option String
  timezoneMode : Option String

/-- `(this.options.reportInterval || 24) * MS_PER_HOUR`. -/
def effIntervalMs (o : SchedOptions) : ℤ :=
  (if o.reportInterval = 0 then DEFAULT_REPORT_INTERVAL_HOURS
   else (o.reportInterval : ℤ)) * MS_PER_HOUR

/-- True when `timezoneMode` is the string `gps` or is undefined. -/
def useGpsTime (o : SchedOptions) : Bool :=
  o.timezoneMode == some "gps" || o.timezoneMode == none

/-- The current day anchor instant: `new Date(now)` with `setUTCHours(h, m, 0, 0)`
(GPS mode) or `setHours` (fixed mode, host offset `off` ms east of UTC).
`now` is in UTC milliseconds. -/
def anchorInstant (o : SchedOptions) (off now : ℤ) : ℤ :=
  let hm := parseTime (jsStrOr o.firstReportTime "12:00")
  let eOff := if useGpsTime o then 0 else off
  let nl := now + eOff
  nl - nl % MS_PER_DAY + (hm.1 : ℤ) * MS_PER_HOUR + (hm.2 : ℤ) * MS_PER_MINUTE - eOff

/-- `ReportScheduler.getNextReportTime`: the current day anchor, advanced past `now`
by whole intervals via integer division (`Math.floor(timeSinceFirst /
intervalMs)`), never by iteration. -/
def getNextReportTime (o : SchedOptions) (off now : ℤ) : ℤ :=
  let intervalMs := effIntervalMs o
  let nextReport := anchorInstant o off now
  if nextReport ≤ now then
    nextReport + ((now - nextReport) / intervalMs + 1) * intervalMs
  else nextReport

/-- One `checkForScheduledReport` poll: given the stored `lastReportTime`
and the current time, returns the new `lastReportTime` and whether the
report callback fired. -/
def checkStep (o : SchedOptions) (off : ℤ) (last : Option ℤ) (now : ℤ) :
    Option ℤ × Bool :=
  let nextReport := getNextReportTime o off now
  if |now - nextReport| < REPORT_TRIGGER_WINDOW_MS then
    match last with
    | some l =>
      if |l - nextReport| < REPORT_TRIGGER_WINDOW_MS then (some l, false)
      else (some nextReport, true)
    | none => (some nextReport, true)
  else (last, false)

/-! ## Scheduler lemmas -/

lemma effIntervalMs_pos (o : SchedOptions) : 0 < effIntervalMs o := by
  unfold effIntervalMs DEFAULT_REPORT_INTERVAL_HOURS MS_PER_HOUR
  split
  · norm_num
  · have h : o.reportInterval ≠ 0 := by assumption
    have : 1 ≤ (o.reportInterval : ℤ) := by
      exact_mod_cast Nat.one_le_iff_ne_zero.mpr h
    nlinarith

/-- The branch arithmetic of `getNextReportTime`: the result is the anchor
advanced by the least number of whole intervals that lands strictly after
`now`. -/
lemma nextReport_minimal (anchor now I : ℤ) (hI : 0 < I) :
    ∃ k : ℤ, 0 ≤ k ∧
      (if anchor ≤ now then anchor + ((now - anchor) / I + 1) * I else anchor)
        = anchor + k * I ∧
      now < anchor + k * I ∧
      ∀ j : ℤ, 0 ≤ j → j < k → anchor + j * I ≤ now := by
  by_cases h : anchor ≤ now
  · set e : ℤ := now - anchor with he
    have he0 : 0 ≤ e := by omega
    set q : ℤ := e / I with hq
    have hq0 : 0 ≤ q := Int.ediv_nonneg he0 hI.le
    have hmod : I * q + e % I = e := Int.ediv_add_emod e I
    have hr0 : 0 ≤ e % I := Int.emod_nonneg e (ne_of_gt hI)
    have hrI : e % I < I := Int.emod_lt_of_pos e hI
    refine ⟨q + 1, by omega, ?_, ?_, ?_⟩
    · simp [h]
    · have : e < (q + 1) * I := by nlinarith
      omega
    · intro j hj0 hjk
      have hjq : j ≤ q := by omega
      have : j * I ≤ q * I :=
        mul_le_mul_of_nonneg_right hjq hI.le
      have hqe : q * I ≤ e := by nlinarith
      omega
  · refine ⟨0, le_refl 0, by simp [h], by omega, by omega⟩

/-! ## DistanceCalculator geometry (distance.js) -/

/-- JS `Math.atan2(y, x)`. -/
noncomputable def atan2 (y x : ℝ) : ℝ :=
  if 0 < x then Real.arctan (y / x)
  else if x < 0 then
    (if 0 ≤ y then Real.arctan (y / x) + Real.pi else Real.arctan (y / x) - Real.pi)
  else (if 0 < y then Real.pi / 2 else if y < 0 then -(Real.pi / 2) else 0)

/-- `DistanceCalculator.toRadians`. -/
noncomputable def toRadians (degrees : ℝ) : ℝ := degrees * (Real.pi / 180)

/-- `DistanceCalculator.haversineDistance`: great-circle distance in
nautical miles (Earth radius 3440.065 nm). -/
noncomputable def haversineDistance (lat1 lon1 lat2 lon2 : ℝ) : ℝ :=
  let dLat := toRadians (lat2 - lat1)
  let dLon := toRadians (lon2 - lon1)
  let a := Real.sin (dLat / 2) * Real.sin (dLat / 2) +
    Real.cos (toRadians lat1) * Real.cos (toRadians lat2) *
    (Real.sin (dLon / 2) * Real.sin (dLon / 2))
  let c := 2 * atan2 (Real.sqrt a) (Real.sqrt (1 - a))
  3440.065 * c

/-- JS `Math.round`. -/
noncomputable def jsRound (x : ℝ) : ℝ := (⌊x + 1 / 2⌋ : ℤ)

/-- `Math.round(x * 10) / 10`: round to one decimal place. -/
noncomputable def round10 (x : ℝ) : ℝ := jsRound (x * 10) / 10

/-! ## Storage model (storage.js, sql.js tables as row lists) -/

/-- A `log_entries` row. -/
structure LogEntry where
  id : ℕ
  timestamp : ℤ
  dateStr : String
  latitude : Option ℝ
  longitude : Option ℝ
  logText : Option String
  emailSent : Bool

/-- A `log_data` row. -/
structure DataRow where
  logId : ℕ
  dataPath : String
  dataLabel : Option String
  dataValue : Option String
  dataUnit : Option String

/-- A `distance_log` row. -/
structure DistRow where
  logId : ℕ
  distanceSinceLast : ℝ
  totalDistance : ℝ

/-- A `voyage_info` row. -/
structure Voyage where
  id : ℕ
  voyageName : Option String
  startTimestamp : ℤ
  endTimestamp : Option ℤ
  isActive : Bool

/-- The whole database, with AUTOINCREMENT counters. -/
structure St where
  entries : List LogEntry
  dataRows : List DataRow
  distRows : List DistRow
  voyages : List Voyage
  nextLogId : ℕ
  nextVoyageId : ℕ

/-- Input record for `LogStorage.createLogEntry`. -/
structure NewLogData where
  timestamp : ℤ
  dateStr : String
  latitude : Option ℝ
  longitude : Option ℝ
  logText : Option String
  emailSent : Bool

/-- `LogStorage.createLogEntry`: inserts a row, applying the `|| null`
coercions of the INSERT parameter list, and returns the new row id. -/
noncomputable def createLogEntry (st : St) (data : NewLogData) : St × ℕ :=
  let e : LogEntry :=
    { id := st.nextLogId
      timestamp := data.timestamp
      dateStr := data.dateStr
      latitude := jsOrNull data.latitude
      longitude := jsOrNull data.longitude
      logText := jsStrOrNull data.logText
      emailSent := data.emailSent }
  ({ st with entries := st.entries ++ [e], nextLogId := st.nextLogId + 1 },
   st.nextLogId)

/-- `LogStorage.addLogData`. -/
def addLogData (st : St) (logId : ℕ) (dataPath : String)
    (label value unit : Option String) : St :=
  { st with dataRows := st.dataRows ++
      [{ logId := logId, dataPath := dataPath, dataLabel := jsStrOrNull label,
         dataValue := jsStrOrNull value, dataUnit := jsStrOrNull unit }] }

/-- `LogStorage.addDistanceData`. -/
def addDistanceData (st : St) (logId : ℕ) (distanceSinceLast totalDistance : ℝ) :
    St :=
  { st with distRows := st.distRows ++
      [{ logId := logId, distanceSinceLast := distanceSinceLast,
         totalDistance := totalDistance }] }

/-- `LogStorage.getLastLog`: `SELECT * FROM log_entries ORDER BY timestamp
DESC LIMIT 1` — over ALL entries, not voyage-scoped. -/
def getLastLog (st : St) : Option LogEntry :=
  st.entries.foldl
    (fun acc e =>
      match acc with
      | none => some e
      | some a => if a.timestamp < e.timestamp then some e else some a)
    none

/-- `LogStorage.markEmailSent`. -/
def markEmailSent (st : St) (logId : ℕ) : St :=
  { st with entries := (st.entries.map
      (fun e => if e.id == logId then { e with emailSent := true } else e)) }

/-- `LogStorage.getActiveVoyage`: `WHERE is_active = 1 LIMIT 1`. -/
def getActiveVoyage (st : St) : Option Voyage :=
  st.voyages.find? (fun v => v.isActive)

/-- `LogStorage.startNewVoyage`: ends every active voyage (stamping its
end timestamp), then inserts a fresh active voyage, returning its id.
`dateStr` feeds the default name `Voyage <date>`. -/
def startNewVoyage (st : St) (name : Option String) (dateStr : String)
    (tNow : ℤ) : St × ℕ :=
  let ended := st.voyages.map
    (fun v => if v.isActive then
        { v with isActive := false, endTimestamp := some tNow }
      else v)
  let fresh : Voyage :=
    { id := st.nextVoyageId
      voyageName := some (jsStrOr name ("Voyage " ++ dateStr))
      startTimestamp := tNow
      endTimestamp := none
      isActive := true }
  ({ st with voyages := ended ++ [fresh], nextVoyageId := st.nextVoyageId + 1 },
   st.nextVoyageId)

/-- The per-voyage part of the `getVoyageDistance` SQL join: one
`distance_since_last` value per (distance row, matching entry) pair with
`le.timestamp >= v.start_timestamp`. -/
def voyageJoinRows (st : St) (v : Voyage) : List ℝ :=
  st.distRows.flatMap (fun d =>
    (st.entries.filter (fun e =>
        e.id == d.logId && decide (v.startTimestamp ≤ e.timestamp))).map
      (fun _ => d.distanceSinceLast))

/-- `LogStorage.getVoyageDistance`: `SUM(dl.distance_since_last)` over the
join of distance rows, entries and the active voyage(s); NULL sum reads
back as 0. -/
def getVoyageDistance (st : St) : ℝ :=
  ((st.voyages.filter (fun v => v.isActive)).flatMap
    (fun v => voyageJoinRows st v)).sum

/-- `SELECT ... WHERE id = ?` on `voyage_info`. -/
def findVoyage (st : St) (voyageId : ℕ) : Option Voyage :=
  st.voyages.find? (fun v => v.id == voyageId)

/-- `SELECT start_timestamp FROM voyage_info WHERE id > ? ORDER BY id
LIMIT 1`: the start of the voyage with the least id above `voyageId`. -/
def nextVoyageStart (st : St) (voyageId : ℕ) : Option ℤ :=
  ((st.voyages.filter (fun v => voyageId < v.id)).foldl
    (fun acc v =>
      match acc with
      | none => some v
      | some a => if v.id < a.id then some v else some a)
    none).map (fun v => v.startTimestamp)

/-- `LogStorage.getLogsByVoyage`: membership by time range — from the
start of the given voyage up to the start of the next one (open-ended for the active
voyage or the last one). -/
def getLogsByVoyage (st : St) (voyageId : ℕ) : List LogEntry :=
  match findVoyage st voyageId with
  | none => []
  | some v =>
    if v.isActive then
      st.entries.filter (fun e => decide (v.startTimestamp ≤ e.timestamp))
    else
      match nextVoyageStart st voyageId with
      | some endTs =>
        st.entries.filter (fun e =>
          decide (v.startTimestamp ≤ e.timestamp) && decide (e.timestamp < endTs))
      | none =>
        st.entries.filter (fun e => decide (v.startTimestamp ≤ e.timestamp))

/-- The deletion body of `LogStorage.deleteVoyage` (after the active-voyage
guard): batch-deletes the rows of the voyage and the voyage itself, returning
the new state and the deleted-log count. -/
def doDeleteVoyage (st : St) (voyageId : ℕ) : St × ℕ :=
  let logIds := (getLogsByVoyage st voyageId).map (fun e => e.id)
  ({ st with
      distRows := st.distRows.filter (fun d => !(logIds.contains d.logId))
      dataRows := st.dataRows.filter (fun r => !(logIds.contains r.logId))
      entries := st.entries.filter (fun e => !(logIds.contains e.id))
      voyages := st.voyages.filter (fun v => !(v.id == voyageId)) },
   logIds.length)

/-- `LogStorage.deleteVoyage`: throws `Cannot delete active voyage` when the
target row is active, otherwise deletes it with cascades. -/
def deleteVoyage (st : St) (voyageId : ℕ) : Except String (St × ℕ) :=
  match findVoyage st voyageId with
  | some v =>
    if v.isActive then Except.error "Cannot delete active voyage"
    else Except.ok (doDeleteVoyage st voyageId)
  | none => Except.ok (doDeleteVoyage st voyageId)

/-- Result record of `LogStorage.renameVoyage`. -/
structure RenameResult where
  success : Bool
  voyageId : ℕ
  newName : String

/-- `LogStorage.renameVoyage`: an unconditional UPDATE; always reports
success whether or not any row matched. -/
def renameVoyage (st : St) (voyageId : ℕ) (newName : String) :
    St × RenameResult :=
  ({ st with voyages := (st.voyages.map
      (fun v => if v.id == voyageId then { v with voyageName := some newName }
                else v)) },
   { success := true, voyageId := voyageId, newName := newName })

/-- JS `String.prototype.trim` over the char list. -/
def trimChars (l : List Char) : List Char :=
  ((l.dropWhile (·.isWhitespace)).reverse.dropWhile (·.isWhitespace)).reverse

def strTrim (s : String) : String := String.mk (trimChars s.toList)

/-- `VoyageManager.renameVoyage`: input validation (positive numeric id,
non-blank name of at most 100 chars) then the storage UPDATE; validation
failures are thrown and wrapped. -/
def managerRenameVoyage (st : St) (voyageId : ℤ) (newName : String) :
    Except String (St × RenameResult) :=
  if voyageId < 1 then
    Except.error "Failed to rename voyage: Invalid voyage ID"
  else if strTrim newName = "" then
    Except.error "Failed to rename voyage: Voyage name cannot be empty"
  else if 100 < newName.length then
    Except.error "Failed to rename voyage: Voyage name too long (max 100 characters)"
  else Except.ok (renameVoyage st voyageId.toNat (strTrim newName))

/-- Plugin startup voyage bootstrap (index.js `start`): create a first
voyage when no active one exists. -/
def pluginStartVoyage (st : St) (dateStr : String) (tNow : ℤ) : St :=
  match getActiveVoyage st with
  | some _ => st
  | none => (startNewVoyage st (some "First Voyage") dateStr tNow).1

/-! ## DistanceCalculator over storage (distance.js) -/

/-- `DistanceCalculator.getDistanceSinceLast`: haversine from the globally
most recent entry, or 0 when there is none or its coordinates are falsy. -/
noncomputable def getDistanceSinceLast (st : St) (currentLat currentLon : ℝ) : ℝ :=
  match getLastLog st with
  | none => 0
  | some lastLog =>
    if numTruthy lastLog.latitude && numTruthy lastLog.longitude then
      haversineDistance (jsNum lastLog.latitude) (jsNum lastLog.longitude)
        currentLat currentLon
    else 0

/-- Output of `DistanceCalculator.calculateDistanceData`. -/
structure DistData where
  distanceSinceLast : ℝ
  totalDistance : ℝ

/-- `DistanceCalculator.calculateDistanceData`: raw delta and raw running
total, both rounded to one decimal before being returned (and persisted). -/
noncomputable def calculateDistanceData (st : St) (currentLat currentLon : ℝ) :
    DistData :=
  let distanceSinceLast := getDistanceSinceLast st currentLat currentLon
  let currentTotal := getVoyageDistance st
  let totalDistance := currentTotal + distanceSinceLast
  { distanceSinceLast := round10 distanceSinceLast
    totalDistance := round10 totalDistance }

/-! ## DataCollector (collector.js) -/

/-- A position object as read from the SignalK path. -/
structure RawPos where
  latitude : Option ℝ
  longitude : Option ℝ

/-- A collected position after `getPosition`. -/
structure Pos where
  latitude : Option ℝ
  longitude : Option ℝ

/-- `DataCollector.getPosition`: `null` stays `null`; otherwise each
coordinate goes through `|| null`, so a 0 coordinate becomes `null`. -/
noncomputable def getPosition (raw : Option RawPos) : Option Pos :=
  match raw with
  | none => none
  | some p => some { latitude := jsOrNull p.latitude,
                     longitude := jsOrNull p.longitude }

/-- `path.includes(sub)`. -/
def listInfix (pat : List Char) : List Char → Bool
  | [] => pat.isEmpty
  | c :: rest => pat.isPrefixOf (c :: rest) || listInfix pat rest

def strIncludes (s pat : String) : Bool := listInfix pat.toList s.toList

/-- `DataCollector.convertValueWithUnit` (collector.js, full version): the
ordered path-substring match determining unit conversion. -/
noncomputable def convertValueWithUnit (value : Option ℝ) (path : String)
    (useMetric : Bool) : Option ℝ × String :=
  match value with
  | none => (none, "")
  | some v =>
    if strIncludes path "temperature" then
      if useMetric then (some (v - 273.15), "°C")
      else (some ((v - 273.15) * (9 / 5) + 32), "°F")
    else if strIncludes path "wind" && strIncludes path "speed" then
      if useMetric then (some v, "m/s") else (some (v * 1.94384), "kts")
    else if strIncludes path "wind" &&
        (strIncludes path "angle" || strIncludes path "direction") then
      let degrees := v * (180 / Real.pi)
      (some (if degrees < 0 then degrees + 360 else degrees), "°")
    else if strIncludes path "pressure" then
      if useMetric then (some (v * 0.01), "hPa")
      else (some (v * 0.0002953), "inHg")
    else if strIncludes path "speed" && !(strIncludes path "wind") then
      if useMetric then (some (v * 3.6), "km/h") else (some (v * 1.94384), "kts")
    else if strIncludes path "distance" then
      if useMetric then (some (v * 0.001), "km")
      else (some (v * (1 / 1852)), "nm")
    else if strIncludes path "depth" then
      if useMetric then (some v, "m") else (some (v * 3.28084), "ft")
    else if strIncludes path "stateOfCharge" || strIncludes path "soc" then
      (some (v * 100), "%")
    else if strIncludes path "voltage" ||
        (strIncludes path "electrical" && strIncludes path "batteries") then
      if 0 ≤ v ∧ v ≤ 1 then (some (v * 100), "%") else (some v, "V")
    else (some v, "")

/-! ## NoonReportHandler (noonReportHandler.js) and PositionTracker
(positionTracker.js) -/

/-- One item of `collectCustomData` output. -/
structure CustomItem where
  path : String
  label : Option String
  value : Option String
  unit : Option String

/-- `DataCollector.collectNoonData` output. -/
structure NoonData where
  timestamp : ℤ
  dateStr : String
  position : Option Pos
  customData : List CustomItem

/-- Outcome of one noon-report cycle. -/
inductive NoonOutcome
  | ok (logId : ℕ)
  | noPosition

/-- `NoonReportHandler.createDatabaseEntry`: main entry, then the custom
data rows, then the single distance row. -/
noncomputable def createDatabaseEntry (nd : NoonData) (dd : DistData)
    (pendingLogText : Option String) (st : St) : St × ℕ :=
  let r := createLogEntry st
    { timestamp := nd.timestamp
      dateStr := nd.dateStr
      latitude := nd.position.bind (fun p => p.latitude)
      longitude := nd.position.bind (fun p => p.longitude)
      logText := pendingLogText
      emailSent := false }
  let st2 := nd.customData.foldl
    (fun s d => addLogData s r.2 d.path d.label d.value d.unit) r.1
  let st3 := addDistanceData st2 r.2 dd.distanceSinceLast dd.totalDistance
  (st3, r.2)

/-- `NoonReportHandler.handleNoonReport`: abort (reporting the condition)
when the snapshot has no truthy-latitude position; otherwise compute
distance data, persist entry + data + distance, and mark the email flag
when the mailer reports success (`mailerResult = none` models a disabled
mailer). -/
noncomputable def handleNoonReport (nd : NoonData) (pendingLogText : Option String)
    (mailerResult : Option Bool) (st : St) : St × NoonOutcome :=
  match nd.position with
  | none => (st, NoonOutcome.noPosition)
  | some p =>
    if numTruthy p.latitude then
      let dd := calculateDistanceData st (jsNum p.latitude) (jsNum p.longitude)
      let r := createDatabaseEntry nd dd pendingLogText st
      let st2 := match mailerResult with
        | some true => markEmailSent r.1 r.2
        | _ => r.1
      (st2, NoonOutcome.ok r.2)
    else (st, NoonOutcome.noPosition)

/-- `PositionTracker.shouldSkipPosition`: coordinate-degree proximity
filter against the last sampled position. -/
noncomputable def shouldSkipPosition (lastPosition : Option Pos) (p : Pos) : Bool :=
  match lastPosition with
  | none => false
  | some lp =>
    decide (|jsNum p.latitude - jsNum lp.latitude| < 0.001 ∧
            |jsNum p.longitude - jsNum lp.longitude| < 0.001)

/-- `PositionTracker.recordPosition`: skip without a truthy-latitude
position or when stationary; otherwise persist an auto-track entry (no log
text, custom data rows attached, and no distance row). Returns the
new tracker `lastPosition`, the new storage state, and whether an entry
was recorded. -/
noncomputable def recordPosition (nd : NoonData) (lastPosition : Option Pos)
    (st : St) : Option Pos × St × Bool :=
  match nd.position with
  | none => (lastPosition, st, false)
  | some p =>
    if numTruthy p.latitude then
      if shouldSkipPosition lastPosition p then (lastPosition, st, false)
      else
        let r := createLogEntry st
          { timestamp := nd.timestamp
            dateStr := nd.dateStr
            latitude := p.latitude
            longitude := p.longitude
            logText := none
            emailSent := false }
        let st2 := nd.customData.foldl
          (fun s d => addLogData s r.2 d.path d.label d.value d.unit) r.1
        (some p, st2, true)
    else (lastPosition, st, false)

/-! ## Claim C3: schedule advancement by integer division -/

/-- A 24h GPS-mode configuration anchored at 12:00. -/
def gpsNoonOpts : SchedOptions :=
  { reportInterval := 24, firstReportTime := some "12:00",
    timezoneMode := some "gps" }

/-- C3: for every now, configured anchor time and interval,
`getNextReportTime` returns anchor + k*interval for the smallest k ≥ 0 with
anchor + k*interval > now, computed by integer division; in particular with
anchor 12:00, interval 24h, GPS mode and now = anchor + 3.5 intervals
(345600000 ms = 43200000 + 3.5 * 86400000), the result is anchor + 4
intervals. -/
theorem C3_schedule_advancement :
    (∀ (o : SchedOptions) (off now : ℤ), ∃ k : ℤ, 0 ≤ k ∧
      getNextReportTime o off now
        = anchorInstant o off now + k * effIntervalMs o ∧
      now < anchorInstant o off now + k * effIntervalMs o ∧
      ∀ j : ℤ, 0 ≤ j → j < k →
        anchorInstant o off now + j * effIntervalMs o ≤ now) ∧
    getNextReportTime gpsNoonOpts 0 345600000 = 43200000 + 4 * 86400000 := by
  constructor
  · intro o off now
    have h := nextReport_minimal (anchorInstant o off now) now
      (effIntervalMs o) (effIntervalMs_pos o)
    simpa [getNextReportTime] using h
  · decide

/-! ## Claim C4: no double fire within one trigger window -/

/-- C4: for any single due instant, the first schedule check landing in the
60-second trigger window fires and records the due instant itself as
`lastReportTime`; any later check that resolves to the same due instant is
suppressed. -/
theorem C4_no_double_fire (o : SchedOptions) (off : ℤ) (last : Option ℤ)
    (t1 t2 d : ℤ)
    (hd : getNextReportTime o off t1 = d)
    (hwin : |t1 - d| < REPORT_TRIGGER_WINDOW_MS)
    (hlast : ∀ l, last = some l → REPORT_TRIGGER_WINDOW_MS ≤ |l - d|)
    (hd2 : getNextReportTime o off t2 = d) :
    checkStep o off last t1 = (some d, true) ∧
    checkStep o off (some d) t2 = (some d, false) := by
  constructor
  · simp only [checkStep, hd]
    rw [if_pos hwin]
    cases last with
    | none => rfl
    | some l =>
      have hl : ¬ |l - d| < REPORT_TRIGGER_WINDOW_MS := not_lt.mpr (hlast l rfl)
      simp [hl]
  · simp only [checkStep, hd2]
    by_cases h2 : |t2 - d| < REPORT_TRIGGER_WINDOW_MS
    · rw [if_pos h2]
      have : |d - d| < REPORT_TRIGGER_WINDOW_MS := by
        simp [REPORT_TRIGGER_WINDOW_MS]
      rw [if_pos this]
    · rw [if_neg h2]

/-- Witness for C4 at a concrete due instant (12:00 UTC on 1970-01-05,
388800000 ms): a check 30 s before it fires and records 388800000; a later
check 10 s before it is suppressed. -/
theorem C4_no_double_fire_witness :
    checkStep gpsNoonOpts 0 none 388770000 = (some 388800000, true) ∧
    checkStep gpsNoonOpts 0 (some 388800000) 388790000
      = (some 388800000, false) :=
  C4_no_double_fire gpsNoonOpts 0 none 388770000 388790000 388800000
    (by decide) (by decide) (fun l hl => nomatch hl) (by decide)

/-! ## Claim C6: abort before persisting when there is no position -/

/-- A freshly initialised empty database. -/
def emptySt : St :=
  { entries := [], dataRows := [], distRows := [], voyages := [],
    nextLogId := 1, nextVoyageId := 1 }

/-- C6: if the collected snapshot contains no position, the report cycle
aborts before persisting anything — the storage state is returned
untouched (no entry, data, or distance row is written and no emailSent
flag is set) and the no-position condition is reported. -/
theorem C6_abort_on_no_fix (nd : NoonData) (pendingLogText : Option String)
    (mailerResult : Option Bool) (st : St) (h : nd.position = none) :
    handleNoonReport nd pendingLogText mailerResult st
      = (st, NoonOutcome.noPosition) := by
  unfold handleNoonReport
  rw [h]

/-- Witness for C6: a concrete snapshot with `position = null` against the
fresh database leaves it untouched. -/
theorem C6_abort_on_no_fix_witness :
    handleNoonReport
      { timestamp := 100, dateStr := "1970-01-01", position := none,
        customData := [] } none none emptySt
      = (emptySt, NoonOutcome.noPosition) :=
  C6_abort_on_no_fix _ none none emptySt rfl

/-! ## Claim C7: exactly one active voyage -/

def countActive (st : St) : ℕ := st.voyages.countP (fun v => v.isActive)

lemma countP_deactivated (l : List Voyage) (tNow : ℤ) :
    (l.map (fun v => if v.isActive then
        { v with isActive := false, endTimestamp := some tNow }
      else v)).countP (fun v => v.isActive) = 0 := by
  induction l with
  | nil => rfl
  | cons h t ih =>
    by_cases hh : h.isActive <;> simp [List.countP_cons, hh, ih]

lemma countActive_startNewVoyage (st : St) (name : Option String)
    (dateStr : String) (tNow : ℤ) :
    countActive (startNewVoyage st name dateStr tNow).1 = 1 := by
  unfold countActive startNewVoyage
  simp only [List.countP_append, countP_deactivated]
  rfl

/-- If every active voyage row has an id other than `voyageId`, removing
the rows with that id preserves the active count. -/
lemma countActive_filter_ne (l : List Voyage) (voyageId : ℕ)
    (h : ∀ w ∈ l, w.isActive = true → (w.id == voyageId) = false) :
    (l.filter (fun v => !(v.id == voyageId))).countP (fun v => v.isActive)
      = l.countP (fun v => v.isActive) := by
  rw [List.countP_filter]
  refine List.countP_congr ?_
  intro w hw
  constructor
  · intro hb
    exact (Bool.and_elim_left hb)
  · intro hb
    have := h w hw hb
    simp [hb, this]

/-- C7: exactly one voyage is active at any time — `startNewVoyage`
deactivates (and end-stamps) the previous active voyage and activates the
new one in the same step; deleting a voyage (rejected for the active one)
and renaming a voyage preserve the single-active invariant; and startup
creates an active voyage when none exists. -/
theorem C7_single_active_voyage :
    (∀ (st : St) (name : Option String) (dateStr : String) (tNow : ℤ),
      countActive (startNewVoyage st name dateStr tNow).1 = 1) ∧
    (∀ (st : St) (voyageId : ℕ) (res : St × ℕ),
      (st.voyages.map (fun v => v.id)).Nodup → countActive st = 1 →
      deleteVoyage st voyageId = Except.ok res → countActive res.1 = 1) ∧
    (∀ (st : St) (voyageId : ℕ) (newName : String),
      countActive (renameVoyage st voyageId newName).1 = countActive st) ∧
    (∀ (st : St) (dateStr : String) (tNow : ℤ),
      countActive st ≤ 1 → countActive (pluginStartVoyage st dateStr tNow) = 1) := by
  refine ⟨countActive_startNewVoyage, ?_, ?_, ?_⟩
  · intro st voyageId res hnodup hone hdel
    have hkey : ∀ w ∈ st.voyages, w.isActive = true → (w.id == voyageId) = false := by
      intro w hw hact
      by_contra hne
      have hwid : w.id = voyageId := by
        simpa using (Bool.not_eq_false _).mp hne
      cases hfind : findVoyage st voyageId with
      | none =>
        have := List.find?_eq_none.mp hfind w hw
        simp [hwid] at this
      | some v =>
        have hv : res = doDeleteVoyage st voyageId ∧ v.isActive = false := by
          unfold deleteVoyage at hdel
          rw [hfind] at hdel
          by_cases hva : v.isActive
          · simp [hva] at hdel
          · simp [hva] at hdel
            exact ⟨hdel.symm, by simpa using hva⟩
        have hvmem := List.mem_of_find?_eq_some hfind
        have hvid : v.id = voyageId := by
          simpa using List.find?_some hfind
        have hwv : w = v :=
          List.inj_on_of_nodup_map hnodup hw hvmem (by rw [hwid, hvid])
        rw [hwv] at hact
        rw [hv.2] at hact
        cases hact
    have hres : res = doDeleteVoyage st voyageId := by
      unfold deleteVoyage at hdel
      cases hfind : findVoyage st voyageId with
      | none =>
        rw [hfind] at hdel
        simp at hdel
        exact hdel.symm
      | some v =>
        rw [hfind] at hdel
        by_cases hva : v.isActive
        · simp [hva] at hdel
        · simp [hva] at hdel
          exact hdel.symm
    rw [hres]
    unfold doDeleteVoyage countActive at *
    simpa [countActive_filter_ne st.voyages voyageId hkey] using hone
  · intro st voyageId newName
    unfold countActive renameVoyage
    simp only [List.countP_map]
    refine List.countP_congr ?_
    intro v _
    by_cases hv : v.id == voyageId <;> simp [hv, Function.comp]
  · intro st dateStr tNow hle
    unfold pluginStartVoyage
    cases hact : getActiveVoyage st with
    | some v =>
      have hmem := List.mem_of_find?_eq_some hact
      have hp := List.find?_some hact
      have hpos : 0 < countActive st :=
        List.countP_pos_iff.mpr ⟨v, hmem, hp⟩
      show countActive st = 1
      omega
    | none => exact countActive_startNewVoyage st (some "First Voyage") dateStr tNow

/-- A database holding a single voyage (id 1, active). -/
def oneVoyageSt : St :=
  { entries := [], dataRows := [], distRows := [],
    voyages := [{ id := 1, voyageName := some "A", startTimestamp := 0,
                  endTimestamp := none, isActive := true }],
    nextLogId := 1, nextVoyageId := 2 }

/-- Witness for C7 on the single-voyage database: starting a new voyage,
deleting a nonexistent voyage id, renaming, and the startup bootstrap each
leave exactly one active voyage. -/
theorem C7_single_active_voyage_witness :
    countActive (startNewVoyage oneVoyageSt none "1970-01-02" 50).1 = 1 ∧
    countActive (doDeleteVoyage oneVoyageSt 2).1 = 1 ∧
    countActive (renameVoyage oneVoyageSt 1 "B").1 = countActive oneVoyageSt ∧
    countActive (pluginStartVoyage oneVoyageSt "1970-01-02" 50) = 1 :=
  ⟨C7_single_active_voyage.1 oneVoyageSt none "1970-01-02" 50,
   C7_single_active_voyage.2.1 oneVoyageSt 2 (doDeleteVoyage oneVoyageSt 2)
     (by decide) (by decide) rfl,
   C7_single_active_voyage.2.2.1 oneVoyageSt 1 "B",
   C7_single_active_voyage.2.2.2 oneVoyageSt "1970-01-02" 50 (by decide)⟩

/-! ## Claim C9: invalid voyage operations -/

/-- C9 counterexample: renaming voyage id 5, which does not exist in the
single-voyage database, is NOT rejected — it returns a success result and
leaves the state unchanged, contradicting the claim that it is surfaced as
a failed operation. -/
theorem C9_counterexample :
    managerRenameVoyage oneVoyageSt 5 "B"
      = Except.ok (oneVoyageSt, { success := true, voyageId := 5, newName := "B" }) ∧
    ∀ v ∈ oneVoyageSt.voyages, v.id ≠ 5 := by
  constructor
  · rfl
  · decide

lemma renameVoyage_no_match (st : St) (voyageId : ℕ) (newName : String)
    (h : ∀ v ∈ st.voyages, v.id ≠ voyageId) :
    renameVoyage st voyageId newName
      = (st, { success := true, voyageId := voyageId, newName := newName }) := by
  unfold renameVoyage
  have hmap : (st.voyages.map
      (fun v => if v.id == voyageId then { v with voyageName := some newName }
                else v)) = st.voyages := by
    have := List.map_congr_left (l := st.voyages)
      (f := fun v => if v.id == voyageId then { v with voyageName := some newName }
                     else v) (g := id) ?_
    · simpa using this
    · intro v hv
      have : (v.id == voyageId) = false := by
        simpa using h v hv
      simp [this]
  rw [hmap]

/-- C9 (amended): deleting the currently active voyage is rejected with the
specific reason `Cannot delete active voyage` and changes nothing, but
renaming a nonexistent voyage id (with an otherwise valid id and name) is
NOT rejected: the UPDATE matches no row, the state is unchanged, and a
success result is returned. -/
theorem C9_invalid_voyage_ops (st : St) (voyageId : ℕ) (v : Voyage)
    (renameId : ℤ) (newName : String)
    (hfind : findVoyage st voyageId = some v) (hact : v.isActive = true)
    (hid : 1 ≤ renameId) (hnm : strTrim newName ≠ "")
    (hlen : newName.length ≤ 100)
    (hmiss : ∀ w ∈ st.voyages, w.id ≠ renameId.toNat) :
    deleteVoyage st voyageId = Except.error "Cannot delete active voyage" ∧
    managerRenameVoyage st renameId newName
      = Except.ok (st, { success := true, voyageId := renameId.toNat,
                         newName := strTrim newName }) := by
  constructor
  · unfold deleteVoyage
    rw [hfind]
    simp [hact]
  · unfold managerRenameVoyage
    rw [if_neg (by omega), if_neg hnm, if_neg (by omega)]
    rw [renameVoyage_no_match st renameId.toNat (strTrim newName) hmiss]

/-- Witness for C9: on the single-voyage database, deleting active voyage 1
errors, and renaming nonexistent voyage 7 succeeds with no state change. -/
theorem C9_invalid_voyage_ops_witness :
    deleteVoyage oneVoyageSt 1 = Except.error "Cannot delete active voyage" ∧
    managerRenameVoyage oneVoyageSt 7 "New"
      = Except.ok (oneVoyageSt, { success := true, voyageId := 7,
                                  newName := "New" }) := by
  have h := C9_invalid_voyage_ops oneVoyageSt 1
    { id := 1, voyageName := some "A", startTimestamp := 0,
      endTimestamp := none, isActive := true }
    7 "New" rfl rfl (by decide) (by decide) (by decide) (by decide)
  exact h

/-! ## Claim C2: distance records at entry creation -/

/-- A collected snapshot with a fix at (10, 20). -/
def trackNd : NoonData :=
  { timestamp := 100, dateStr := "1970-01-01",
    position := some { latitude := some 10, longitude := some 20 },
    customData := [] }

lemma numTruthy_ten : numTruthy (some (10 : ℝ)) = true := by
  simp [numTruthy]

lemma jsOrNull_ten : jsOrNull (some (10 : ℝ)) = some 10 := by
  show (if (10 : ℝ) = 0 then none else some (10 : ℝ)) = some 10
  rw [if_neg (by norm_num)]

lemma jsOrNull_twenty : jsOrNull (some (20 : ℝ)) = some 20 := by
  show (if (20 : ℝ) = 0 then none else some (20 : ℝ)) = some 20
  rw [if_neg (by norm_num)]

/-- C2 counterexample: a PositionSampler auto-track tick persists an entry
with a position (latitude 10, longitude 20) but creates NO distance row —
the distance table stays empty — so not every position-bearing entry has
exactly one DistanceRecord. -/
theorem C2_counterexample :
    (recordPosition trackNd none oneVoyageSt).2.1.entries
      = [{ id := 1, timestamp := 100, dateStr := "1970-01-01",
           latitude := some 10, longitude := some 20, logText := none,
           emailSent := false }] ∧
    (recordPosition trackNd none oneVoyageSt).2.1.distRows = [] ∧
    numTruthy (some (10 : ℝ)) = true := by
  refine ⟨?_, ?_, numTruthy_ten⟩ <;>
    simp [recordPosition, trackNd, numTruthy_ten, shouldSkipPosition,
      createLogEntry, jsOrNull_ten, jsOrNull_twenty, oneVoyageSt, jsStrOrNull]

lemma distRows_foldl_addLogData (l : List CustomItem) (i : ℕ) (s : St) :
    (l.foldl (fun s d => addLogData s i d.path d.label d.value d.unit) s).distRows
      = s.distRows := by
  induction l generalizing s with
  | nil => rfl
  | cons c t ih => simpa [addLogData] using ih _

/-- C2 (amended): a noon-report entry gets exactly one distance row,
created in the same `createDatabaseEntry` step; a PositionSampler
auto-track entry gets none (the sampler never touches the distance
table). -/
theorem C2_distance_record_creation :
    (∀ (nd : NoonData) (dd : DistData) (pendingLogText : Option String) (st : St),
      (∀ d ∈ st.distRows, d.logId ≠ st.nextLogId) →
      ((createDatabaseEntry nd dd pendingLogText st).1.distRows.filter
        (fun d => d.logId == st.nextLogId)).length = 1) ∧
    (∀ (nd : NoonData) (lastPosition : Option Pos) (st : St),
      (recordPosition nd lastPosition st).2.1.distRows = st.distRows) := by
  constructor
  · intro nd dd pendingLogText st hfresh
    unfold createDatabaseEntry addDistanceData
    simp only [distRows_foldl_addLogData, createLogEntry]
    rw [List.filter_append]
    have h1 : st.distRows.filter (fun d => d.logId == st.nextLogId) = [] := by
      refine List.filter_eq_nil_iff.mpr ?_
      intro d hd
      simpa using hfresh d hd
    rw [h1]
    simp
  · intro nd lastPosition st
    unfold recordPosition
    cases nd.position with
    | none => rfl
    | some p =>
      by_cases ht : numTruthy p.latitude
      · simp only [ht, if_true]
        by_cases hs : shouldSkipPosition lastPosition p
        · simp [hs]
        · simp [hs, distRows_foldl_addLogData, createLogEntry]
      · simp [ht]

/-- Witness for C2 (amended): on the single-voyage database the noon path
writes exactly one distance row for entry 1 and the sampler writes none. -/
theorem C2_distance_record_creation_witness :
    ((createDatabaseEntry trackNd { distanceSinceLast := 0, totalDistance := 0 }
        none oneVoyageSt).1.distRows.filter (fun d => d.logId == 1)).length = 1 ∧
    (recordPosition trackNd none oneVoyageSt).2.1.distRows = oneVoyageSt.distRows :=
  ⟨C2_distance_record_creation.1 trackNd
      { distanceSinceLast := 0, totalDistance := 0 } none oneVoyageSt
      (by intro d hd; cases hd),
   C2_distance_record_creation.2 trackNd none oneVoyageSt⟩

/-! ## Claim C1: voyage reset -/

/-- Pole-to-pole haversine along one meridian: exactly half the great
circle, `R * pi` nautical miles. -/
lemma haversine_pole_to_pole :
    haversineDistance 90 45 (-90) 45 = 3440.065 * Real.pi := by
  unfold haversineDistance
  have h1 : toRadians (-90 - 90) = -Real.pi := by
    unfold toRadians; field_simp; ring
  have h2 : toRadians ((45 : ℝ) - 45) = 0 := by
    unfold toRadians; norm_num
  have h3 : toRadians (90 : ℝ) = Real.pi / 2 := by
    unfold toRadians; field_simp; ring
  rw [h1, h2, h3]
  have h4 : Real.sin (-Real.pi / 2) = -1 := by
    rw [show -Real.pi / 2 = -(Real.pi / 2) by ring, Real.sin_neg,
      Real.sin_pi_div_two]
  have h5 : Real.cos (Real.pi / 2) = 0 := Real.cos_pi_div_two
  simp only [h4, h5]
  norm_num
  rw [atan2]
  norm_num
  ring

/-- A database with one active voyage and one prior position-bearing entry
at the north pole. -/
def priorLegSt : St :=
  { entries := [{ id := 1, timestamp := 100, dateStr := "1970-01-01",
                  latitude := some 90, longitude := some 45, logText := none,
                  emailSent := false }],
    dataRows := [],
    distRows := [{ logId := 1, distanceSinceLast := 5, totalDistance := 5 }],
    voyages := [{ id := 1, voyageName := some "A", startTimestamp := 0,
                  endTimestamp := none, isActive := true }],
    nextLogId := 2, nextVoyageId := 2 }

lemma numTruthy_ninety : numTruthy (some (90 : ℝ)) = true := by
  simp [numTruthy]

lemma numTruthy_fortyfive : numTruthy (some (45 : ℝ)) = true := by
  simp [numTruthy]

/-- C1 counterexample: after `startNewVoyage`, `getDistanceSinceLast` does
NOT return 0 — `getLastLog` is not voyage-scoped, so the north-pole entry
of the prior voyage still feeds the haversine, giving `3440.065 * pi` nm for a
south-pole fix. -/
theorem C1_counterexample :
    getDistanceSinceLast (startNewVoyage priorLegSt none "1970-01-01" 200).1
      (-90) 45 ≠ 0 := by
  have hlast :
      getLastLog (startNewVoyage priorLegSt none "1970-01-01" 200).1
        = some { id := 1, timestamp := 100, dateStr := "1970-01-01",
                 latitude := some 90, longitude := some 45, logText := none,
                 emailSent := false } := rfl
  unfold getDistanceSinceLast
  rw [hlast]
  simp only [numTruthy_ninety, numTruthy_fortyfive, Bool.and_self, if_true]
  show haversineDistance 90 45 (-90) 45 ≠ 0
  rw [haversine_pole_to_pole]
  have h := Real.pi_pos
  positivity

lemma filter_deactivated (l : List Voyage) (tNow : ℤ) :
    (l.map (fun v => if v.isActive then
        { v with isActive := false, endTimestamp := some tNow }
      else v)).filter (fun v => v.isActive) = [] := by
  refine List.filter_eq_nil_iff.mpr ?_
  intro v hv
  rcases List.mem_map.mp hv with ⟨w, _, hw⟩
  by_cases hwa : w.isActive
  · rw [if_pos hwa] at hw
    rw [← hw]
    simp
  · rw [if_neg hwa] at hw
    rw [← hw]
    simpa using hwa

/-- C1 (amended): after `startVoyage()` (with all existing entries dated
before the start of the new voyage), `totalDistance()` returns 0, because
the voyage-distance sum is scoped to the time range of the new active
voyage; but
`distanceSinceLast` is NOT reset — the most-recent-position lookup
(`getLastLog`) is global, so it returns exactly what it returned before the
voyage change. -/
theorem C1_voyage_reset (st : St) (name : Option String) (dateStr : String)
    (tNow : ℤ) (currentLat currentLon : ℝ)
    (hbefore : ∀ e ∈ st.entries, e.timestamp < tNow) :
    getVoyageDistance (startNewVoyage st name dateStr tNow).1 = 0 ∧
    getDistanceSinceLast (startNewVoyage st name dateStr tNow).1
        currentLat currentLon
      = getDistanceSinceLast st currentLat currentLon := by
  constructor
  · unfold getVoyageDistance startNewVoyage
    simp only [List.filter_append, filter_deactivated]
    have hfresh : (List.filter (fun v => v.isActive)
        [({ id := st.nextVoyageId,
            voyageName := some (jsStrOr name ("Voyage " ++ dateStr)),
            startTimestamp := tNow, endTimestamp := none,
            isActive := true } : Voyage)])
        = [{ id := st.nextVoyageId,
             voyageName := some (jsStrOr name ("Voyage " ++ dateStr)),
             startTimestamp := tNow, endTimestamp := none,
             isActive := true }] := rfl
    rw [hfresh]
    have hrows : ∀ d ∈ st.distRows,
        ((st.entries.filter (fun e =>
            e.id == d.logId && decide (tNow ≤ e.timestamp))).map
          (fun _ => d.distanceSinceLast)) = ([] : List ℝ) := by
      intro d _
      have : st.entries.filter (fun e =>
          e.id == d.logId && decide (tNow ≤ e.timestamp)) = [] := by
        refine List.filter_eq_nil_iff.mpr ?_
        intro e he
        have := hbefore e he
        simp [decide_eq_true_eq]
        intro _
        omega
      rw [this]
      rfl
    simp only [List.nil_append, List.flatMap_cons, List.flatMap_nil,
      List.append_nil, voyageJoinRows]
    rw [List.flatMap_eq_nil_iff.mpr hrows]
    rfl
  · rfl

/-- Witness for C1 (amended): on the prior-leg database, after starting a
new voyage at t = 200 the voyage total is 0 while `getDistanceSinceLast`
still equals its pre-reset value. -/
theorem C1_voyage_reset_witness :
    getVoyageDistance (startNewVoyage priorLegSt none "1970-01-01" 200).1 = 0 ∧
    getDistanceSinceLast (startNewVoyage priorLegSt none "1970-01-01" 200).1 7 8
      = getDistanceSinceLast priorLegSt 7 8 :=
  C1_voyage_reset priorLegSt none "1970-01-01" 200 7 8
    (by intro e he; simp [priorLegSt] at he; rw [he]; norm_num)

/-! ## Claim C5: rounding of persisted distance values -/

/-- A database whose distance ledger holds 0.05 nm against a prior
entry with no coordinates. -/
def halfTenthSt : St :=
  { entries := [{ id := 1, timestamp := 100, dateStr := "1970-01-01",
                  latitude := none, longitude := none, logText := none,
                  emailSent := false }],
    dataRows := [],
    distRows := [{ logId := 1, distanceSinceLast := 0.05, totalDistance := 0.05 }],
    voyages := [{ id := 1, voyageName := some "A", startTimestamp := 0,
                  endTimestamp := none, isActive := true }],
    nextLogId := 2, nextVoyageId := 2 }

lemma halfTenthSt_distanceSinceLast :
    getDistanceSinceLast halfTenthSt 10 20 = 0 := rfl

lemma halfTenthSt_voyageDistance : getVoyageDistance halfTenthSt = 1 / 20 := by
  show (0.05 : ℝ) + 0 = 1 / 20
  norm_num

/-- C5 counterexample: `calculateDistanceData` — whose output is exactly
what `addDistanceData` persists — rounds to one decimal place: on the
0.05-nm ledger the raw running total 0.05 is persisted as 0.1, so the
persisted, later-summed values are NOT the unrounded ones. -/
theorem C5_counterexample :
    (calculateDistanceData halfTenthSt 10 20).totalDistance
        ≠ getVoyageDistance halfTenthSt + getDistanceSinceLast halfTenthSt 10 20 ∧
    (calculateDistanceData halfTenthSt 10 20).totalDistance = 1 / 10 ∧
    getVoyageDistance halfTenthSt + getDistanceSinceLast halfTenthSt 10 20
      = 1 / 20 := by
  have hsum : getVoyageDistance halfTenthSt + getDistanceSinceLast halfTenthSt 10 20
      = 1 / 20 := by
    rw [halfTenthSt_voyageDistance, halfTenthSt_distanceSinceLast]
    norm_num
  have hval : (calculateDistanceData halfTenthSt 10 20).totalDistance = 1 / 10 := by
    unfold calculateDistanceData
    rw [halfTenthSt_voyageDistance, halfTenthSt_distanceSinceLast]
    unfold round10 jsRound
    norm_num
  refine ⟨?_, hval, hsum⟩
  rw [hval, hsum]
  norm_num

lemma distRows_markEmailSent (st : St) (logId : ℕ) :
    (markEmailSent st logId).distRows = st.distRows := rfl

/-- C5 (amended): distance values are rounded to one decimal place BEFORE
persistence, not only at display: the distance row a successful noon report
appends holds `round10` of the raw haversine delta and of the raw running
total, and these rounded per-leg values are what later sums read back. -/
theorem C5_persisted_values_rounded (nd : NoonData) (pendingLogText : Option String)
    (mailerResult : Option Bool) (st : St) (p : Pos)
    (hpos : nd.position = some p) (hlat : numTruthy p.latitude = true) :
    (handleNoonReport nd pendingLogText mailerResult st).1.distRows
      = st.distRows ++
        [{ logId := st.nextLogId,
           distanceSinceLast := round10
             (getDistanceSinceLast st (jsNum p.latitude) (jsNum p.longitude)),
           totalDistance := round10
             (getVoyageDistance st +
              getDistanceSinceLast st (jsNum p.latitude) (jsNum p.longitude)) }] := by
  unfold handleNoonReport
  rw [hpos]
  simp only [hlat, if_true]
  have hcd : ∀ (dd : DistData) (pending : Option String),
      (createDatabaseEntry nd dd pending st).1.distRows
        = st.distRows ++ [({ logId := st.nextLogId,
                             distanceSinceLast := dd.distanceSinceLast,
                             totalDistance := dd.totalDistance } : DistRow)] := by
    intro dd pending
    unfold createDatabaseEntry addDistanceData
    simp [distRows_foldl_addLogData, createLogEntry]
  cases mailerResult with
  | none =>
    simpa [calculateDistanceData] using
      hcd (calculateDistanceData st (jsNum p.latitude) (jsNum p.longitude))
        pendingLogText
  | some b =>
    cases b with
    | false =>
      simpa [calculateDistanceData] using
        hcd (calculateDistanceData st (jsNum p.latitude) (jsNum p.longitude))
          pendingLogText
    | true =>
      rw [distRows_markEmailSent]
      simpa [calculateDistanceData] using
        hcd (calculateDistanceData st (jsNum p.latitude) (jsNum p.longitude))
          pendingLogText

/-- Witness for C5 (amended): a first report at (10, 20) on the fresh
single-voyage database persists the rounded values round10(0) = 0. -/
theorem C5_persisted_values_rounded_witness :
    (handleNoonReport trackNd none none oneVoyageSt).1.distRows
      = [{ logId := 1, distanceSinceLast := 0, totalDistance := 0 }] := by
  have h := C5_persisted_values_rounded trackNd none none oneVoyageSt
    { latitude := some 10, longitude := some 20 } rfl numTruthy_ten
  rw [h]
  have h0 : getDistanceSinceLast oneVoyageSt (jsNum (some 10)) (jsNum (some 20))
      = 0 := rfl
  have hv : getVoyageDistance oneVoyageSt = 0 := rfl
  rw [h0, hv]
  have hr : round10 (0 : ℝ) = 0 := by
    unfold round10 jsRound
    norm_num
  rw [show ((0 : ℝ) + 0) = 0 by norm_num, hr]
  rfl

/-! ## Claim C8: zero coordinates and the no-fix case -/

/-- A snapshot whose position sits exactly on the equator (latitude 0). -/
def equatorNd : NoonData :=
  { timestamp := 100, dateStr := "1970-01-01",
    position := some { latitude := some 0, longitude := some 5 },
    customData := [] }

/-- A database whose only (most recent) entry sits on the equator. -/
def equatorSt : St :=
  { entries := [{ id := 1, timestamp := 100, dateStr := "1970-01-01",
                  latitude := some 0, longitude := some 5, logText := none,
                  emailSent := false }],
    dataRows := [], distRows := [],
    voyages := [{ id := 1, voyageName := some "A", startTimestamp := 0,
                  endTimestamp := none, isActive := true }],
    nextLogId := 2, nextVoyageId := 2 }

lemma numTruthy_zero : numTruthy (some (0 : ℝ)) = false := by
  simp [numTruthy]

/-- C8 counterexample: a coordinate of exactly 0 IS coerced to the
absent/no-fix case everywhere the claim mentions — `getPosition` turns
latitude 0 into null, the report cycle aborts as `noPosition` on a
latitude-0 fix, and the last-position lookup yields distance 0 against an
equator entry as if no prior position existed. -/
theorem C8_counterexample :
    getPosition (some { latitude := some 0, longitude := some 10 })
      = some { latitude := none, longitude := some 10 } ∧
    handleNoonReport equatorNd none none oneVoyageSt
      = (oneVoyageSt, NoonOutcome.noPosition) ∧
    getDistanceSinceLast equatorSt 10 20 = 0 := by
  refine ⟨?_, ?_, ?_⟩
  · unfold getPosition
    have h0 : jsOrNull (some (0 : ℝ)) = none := by
      show (if (0 : ℝ) = 0 then none else some (0 : ℝ)) = none
      rw [if_pos rfl]
    have h10 : jsOrNull (some (10 : ℝ)) = some 10 := jsOrNull_ten
    show (some { latitude := jsOrNull (some (0 : ℝ)),
                 longitude := jsOrNull (some (10 : ℝ)) } : Option Pos)
      = some { latitude := none, longitude := some 10 }
    rw [h0, h10]
  · unfold handleNoonReport equatorNd
    simp [numTruthy_zero]
  · unfold getDistanceSinceLast
    have hlast : getLastLog equatorSt
        = some { id := 1, timestamp := 100, dateStr := "1970-01-01",
                 latitude := some 0, longitude := some 5, logText := none,
                 emailSent := false } := rfl
    rw [hlast]
    simp [numTruthy_zero]

/-- C8 (amended): a numeric coordinate of exactly 0 is treated as
absent/no-fix, not as a valid coordinate: `getPosition` coerces it to
null (`|| null`), `handleNoonReport` aborts on a latitude-0 position, and
`getDistanceSinceLast` returns 0 whenever the most recent entry has a 0
latitude or longitude. -/
theorem C8_zero_coordinate_coerced (lon : Option ℝ) (nd : NoonData) (p : Pos)
    (pendingLogText : Option String) (mailerResult : Option Bool) (st st2 : St)
    (e : LogEntry) (currentLat currentLon : ℝ)
    (hpos : nd.position = some p) (hlat : p.latitude = some 0)
    (hlast : getLastLog st2 = some e)
    (hzero : e.latitude = some 0 ∨ e.longitude = some 0) :
    getPosition (some { latitude := some 0, longitude := lon })
      = some { latitude := none, longitude := jsOrNull lon } ∧
    handleNoonReport nd pendingLogText mailerResult st
      = (st, NoonOutcome.noPosition) ∧
    getDistanceSinceLast st2 currentLat currentLon = 0 := by
  refine ⟨?_, ?_, ?_⟩
  · unfold getPosition
    have h0 : jsOrNull (some (0 : ℝ)) = none := by
      show (if (0 : ℝ) = 0 then none else some (0 : ℝ)) = none
      rw [if_pos rfl]
    show (some { latitude := jsOrNull (some (0 : ℝ)),
                 longitude := jsOrNull lon } : Option Pos)
      = some { latitude := none, longitude := jsOrNull lon }
    rw [h0]
  · unfold handleNoonReport
    rw [hpos]
    have hfalse : numTruthy p.latitude = false := by
      rw [hlat]; exact numTruthy_zero
    simp [hfalse]
  · unfold getDistanceSinceLast
    rw [hlast]
    show (if (numTruthy e.latitude && numTruthy e.longitude) = true then
        haversineDistance (jsNum e.latitude) (jsNum e.longitude)
          currentLat currentLon
      else 0) = 0
    cases hzero with
    | inl h => rw [h]; simp [numTruthy_zero]
    | inr h => rw [h]; simp [numTruthy_zero]

/-- Witness for C8 (amended) at concrete inputs: longitude 10 raw
position, the equator snapshot, and the equator database. -/
theorem C8_zero_coordinate_coerced_witness :
    getPosition (some { latitude := some 0, longitude := some 10 })
      = some { latitude := none, longitude := jsOrNull (some 10) } ∧
    handleNoonReport equatorNd none none emptySt
      = (emptySt, NoonOutcome.noPosition) ∧
    getDistanceSinceLast equatorSt 10 20 = 0 :=
  C8_zero_coordinate_coerced (some 10) equatorNd
    { latitude := some 0, longitude := some 5 } none none emptySt equatorSt
    { id := 1, timestamp := 100, dateStr := "1970-01-01",
      latitude := some 0, longitude := some 5, logText := none,
      emailSent := false }
    10 20 rfl rfl rfl (Or.inl rfl)

/-! ## Claim C10: wind angle normalization range -/

/-- C10 counterexample: a raw wind direction of 2*pi radians converts to
360 degrees, which is outside the claimed half-open range [0, 360). -/
theorem C10_counterexample :
    convertValueWithUnit (some (2 * Real.pi)) "environment.wind.directionTrue" true
      = (some 360, "°") ∧ ¬ ((360 : ℝ) < 360) := by
  constructor
  · unfold convertValueWithUnit
    have ht : strIncludes "environment.wind.directionTrue" "temperature" = false := by
      decide
    have hws : (strIncludes "environment.wind.directionTrue" "wind" &&
        strIncludes "environment.wind.directionTrue" "speed") = false := by
      decide
    have hwa : (strIncludes "environment.wind.directionTrue" "wind" &&
        (strIncludes "environment.wind.directionTrue" "angle" ||
         strIncludes "environment.wind.directionTrue" "direction")) = true := by
      decide
    simp only [ht, hws, hwa, Bool.false_eq_true, if_false, if_true]
    have hdeg : 2 * Real.pi * (180 / Real.pi) = 360 := by
      field_simp; ring
    rw [hdeg]
    rw [if_neg (by norm_num)]
  · norm_num

/-- C10 (amended): for every raw value hitting the wind angle/direction
branch, the conversion carries unit `°`, and its value lies in [0, 360) if
and only if the raw radian value lies in [-2*pi, 2*pi) — the code adds 360
at most once, so any raw value outside one negative or positive turn is
returned out of range. -/
theorem C10_wind_angle_range (path : String) (v : ℝ) (useMetric : Bool)
    (h1 : strIncludes path "temperature" = false)
    (h2 : (strIncludes path "wind" && strIncludes path "speed") = false)
    (h3 : (strIncludes path "wind" &&
      (strIncludes path "angle" || strIncludes path "direction")) = true) :
    ∃ d : ℝ, convertValueWithUnit (some v) path useMetric = (some d, "°") ∧
      ((0 ≤ d ∧ d < 360) ↔ (-(2 * Real.pi) ≤ v ∧ v < 2 * Real.pi)) := by
  unfold convertValueWithUnit
  simp only [h1, h2, h3, Bool.false_eq_true, if_false, if_true]
  have hpi := Real.pi_pos
  have hcoef : (0 : ℝ) < 180 / Real.pi := by positivity
  have h360 : 2 * Real.pi * (180 / Real.pi) = 360 := by
    field_simp; ring
  have hup : v * (180 / Real.pi) < 360 ↔ v < 2 * Real.pi := by
    rw [← h360]
    exact mul_lt_mul_right hcoef
  have hlow : -360 ≤ v * (180 / Real.pi) ↔ -(2 * Real.pi) ≤ v := by
    rw [show (-360 : ℝ) = -(2 * Real.pi) * (180 / Real.pi) by rw [neg_mul, h360]]
    exact mul_le_mul_right hcoef
  by_cases hneg : v * (180 / Real.pi) < 0
  · refine ⟨v * (180 / Real.pi) + 360, by rw [if_pos hneg], ?_⟩
    constructor
    · rintro ⟨ha, hb⟩
      exact ⟨hlow.mp (by linarith), hup.mp (by linarith)⟩
    · rintro ⟨ha, hb⟩
      have := hlow.mpr ha
      exact ⟨by linarith, by linarith⟩
  · refine ⟨v * (180 / Real.pi), by rw [if_neg hneg], ?_⟩
    push_neg at hneg
    constructor
    · rintro ⟨ha, hb⟩
      exact ⟨hlow.mp (by linarith), hup.mp hb⟩
    · rintro ⟨ha, hb⟩
      exact ⟨by linarith, hup.mpr hb⟩

/-- Witness for C10 (amended): a raw wind angle of 0 radians on the
apparent-wind path converts with unit `°` to a value that is in [0, 360)
precisely because 0 lies in [-2*pi, 2*pi). -/
theorem C10_wind_angle_range_witness :
    ∃ d : ℝ,
      convertValueWithUnit (some 0) "environment.wind.angleApparent" true
        = (some d, "°") ∧
      ((0 ≤ d ∧ d < 360) ↔
        (-(2 * Real.pi) ≤ (0 : ℝ) ∧ (0 : ℝ) < 2 * Real.pi)) :=
  C10_wind_angle_range "environment.wind.angleApparent" 0 true
    (by decide) (by decide) (by decide)

end NoonLog
